import Mathlib

/-!
Verification development for the LinkedIn content-automation service.

The definitions below are a shallow embedding of the TypeScript sources:

* `src/app/api/generate/route.ts` — multi-provider fan-out (`POST`), the
  response parsers `parseOpenAIResponse` / `parseGeminiResponse`, and the
  settle-all aggregation into one draft-store creation.
* `src/lib/rate-limit.ts` — the sliding-window `rateLimit` function.
* `src/app/api/publish/route.ts` — `bodySchema`, `isLinkedInConfigured`,
  `stripMarkdown`, `uploadImageToLinkedIn`, and the publish `POST`.
* `src/app/api/canva/status/route.ts` — `GET` status check and
  `refreshCanvaToken`.
* `src/app/api/canva/callback/route.ts` — OAuth callback `GET`.
* `src/app/api/canva/export/route.ts` — export-job polling loop.
* `src/app/dashboard/page.tsx` — the client-side selection/publish gates.

Outbound HTTP calls are modelled as oracle values supplied to each function
(a settled outcome per provider call, a step result per LinkedIn call, a
poll response per export-poll attempt); database writes are returned
explicitly as values so that theorems can state which store operations a
request performs.  Times are epoch milliseconds as `Nat`.
-/

namespace LinkedinAutomation

/-! ### A small JSON value model

Vendor responses are parsed JSON; `null`-valued and absent fields must be
distinguished because JavaScript optional chaining (`?.`) and nullish
coalescing (`??`) treat both as nullish while a present value is returned
as-is. -/

inductive Json where
  | null
  | str (s : String)
  | num (n : Int)
  | bool (b : Bool)
  | arr (items : List Json)
  | obj (fields : List (String × Json))

/-- Property access `v.k`: defined fields of an object; anything else
(`string`, number, array, ...) has no such property, i.e. `undefined`. -/
def Json.getField : Json → String → Option Json
  | .obj fs, k => (fs.find? (fun f => f.1 = k)).map (fun f => f.2)
  | _, _ => none

/-- Index access `v[i]`: array element, or (as in JavaScript) a one-character
string when indexing into a string; `undefined` otherwise. -/
def Json.idx : Json → Nat → Option Json
  | .arr xs, i => xs.get? i
  | .str s, i => (s.data.get? i).map (fun c => .str (String.mk [c]))
  | _, _ => none

/-- Optional chaining `a?.step`: if the operand is `undefined` (`none`) or
`null`, the chain yields `undefined`; otherwise the access is performed. -/
def jnav (j : Option Json) (f : Json → Option Json) : Option Json :=
  match j with
  | none => none
  | some .null => none
  | some v => f v

/-! ### Provider adapters (src/app/api/generate/route.ts) -/

/-- The value of `d?.choices?.[0]?.message?.content` on an OpenAI-compatible
chat-completion response body. -/
def openAIContent (data : Json) : Option Json :=
  jnav (jnav (jnav (jnav (some data) (fun v => v.getField "choices"))
    (fun v => v.idx 0)) (fun v => v.getField "message"))
    (fun v => v.getField "content")

/-- Does the extracted content field hold an actual string?  The declared
return type of the parser is `string`, so this is the only shape a
conforming response can produce. -/
def openAIContentIsString (data : Json) : Bool :=
  match openAIContent data with
  | some (.str _) => true
  | _ => false

/-- Parse an OpenAI-compatible chat-completion response:
`d?.choices?.[0]?.message?.content ?? "[No response]"`.  A missing, `null`
or non-string content field yields the fixed placeholder. -/
def parseOpenAIResponse (data : Json) : String :=
  match openAIContent data with
  | some (.str s) => s
  | _ => "[No response]"

/-- The value of `d?.candidates?.[0]?.content?.parts?.[0]?.text` on a Google
Gemini REST response body. -/
def geminiContent (data : Json) : Option Json :=
  jnav (jnav (jnav (jnav (jnav (jnav (some data)
    (fun v => v.getField "candidates")) (fun v => v.idx 0))
    (fun v => v.getField "content")) (fun v => v.getField "parts"))
    (fun v => v.idx 0)) (fun v => v.getField "text")

/-- Parse a Gemini generate-content response:
`d?.candidates?.[0]?.content?.parts?.[0]?.text ?? "[No response]"`. -/
def parseGeminiResponse (data : Json) : String :=
  match geminiContent data with
  | some (.str s) => s
  | _ => "[No response]"

/-! ### Fan-out aggregation (src/app/api/generate/route.ts, POST) -/

/-- The two strings the handler can pull out of a rejection reason:
`reason?.response?.data?.error?.message` and `reason?.message`. -/
structure RejectReason where
  responseErrMsg : Option String
  message : Option String

/-- Reason text used inside the placeholder:
`reason?.response?.data?.error?.message ?? reason?.message ?? "unknown"`. -/
def reasonText (r : RejectReason) : String :=
  r.responseErrMsg.getD (r.message.getD "unknown")

/-- One settled outcome of `Promise.allSettled`: either a fulfilled axios
response (its JSON `data`) or a rejection reason. -/
inductive Settled where
  | fulfilled (data : Json)
  | rejected (reason : RejectReason)

/-- The five configured providers, in the order the handler settles them. -/
inductive Provider where
  | openai | gemini | claude | geminiDirect | groq
deriving DecidableEq

/-- JSON response key for each provider slot. -/
def providerKey : Provider → String
  | .openai => "openai"
  | .gemini => "gemini"
  | .claude => "claude"
  | .geminiDirect => "geminiDirect"
  | .groq => "groq"

/-- Human-readable label used inside the error placeholder for each slot. -/
def providerLabel : Provider → String
  | .openai => "GPT-OSS"
  | .gemini => "Gemma"
  | .claude => "GLM"
  | .geminiDirect => "Gemini"
  | .groq => "Groq"

/-- Response parser used for each slot: the three OpenRouter slots and Groq
are OpenAI-compatible, the direct Gemini slot uses the Gemini shape. -/
def providerParse : Provider → Json → String
  | .geminiDirect => parseGeminiResponse
  | _ => parseOpenAIResponse

/-- Text stored for a slot: the parsed response when the call fulfilled, or
the bracketed placeholder `[<Label> error: <reason>]` when it rejected. -/
def slotText (p : Provider) : Settled → String
  | .fulfilled d => providerParse p d
  | .rejected r => "[" ++ providerLabel p ++ " error: " ++ reasonText r ++ "]"

/-- The five settled outcomes of one fan-out call. -/
structure SettledBatch where
  openai : Settled
  gemini : Settled
  claude : Settled
  geminiDirect : Settled
  groq : Settled

/-- Look one slot up in a batch. -/
def batchGet (b : SettledBatch) : Provider → Settled
  | .openai => b.openai
  | .gemini => b.gemini
  | .claude => b.claude
  | .geminiDirect => b.geminiDirect
  | .groq => b.groq

/-- The data record passed to the single `prisma.draft.create` call. -/
structure DraftCreate where
  prompt : String
  openaiText : String
  geminiText : String
  claudeText : String
  geminiDirectText : String
  groqText : String
deriving DecidableEq

/-- Aggregation phase of the generate handler, from the `Promise.allSettled`
join to the JSON response: maps each settled outcome to its slot text,
issues exactly one draft-store creation carrying all five texts, and
returns the keyed result set (the response additionally carries the created
draft's `id`, generated by the store). -/
def generateSettle (prompt : String) (b : SettledBatch) :
    List (String × String) × List DraftCreate :=
  let openaiText := slotText .openai b.openai
  let geminiText := slotText .gemini b.gemini
  let claudeText := slotText .claude b.claude
  let geminiDirectText := slotText .geminiDirect b.geminiDirect
  let groqText := slotText .groq b.groq
  ([("openai", openaiText), ("gemini", geminiText), ("claude", claudeText),
    ("geminiDirect", geminiDirectText), ("groq", groqText)],
   [⟨prompt, openaiText, geminiText, claudeText, geminiDirectText, groqText⟩])

/-! ### Client-side selection gates (src/app/dashboard/page.tsx) -/

/-- The check `text.startsWith("[")`: does the string's first character
equal the error-placeholder opening bracket? -/
def startsWithBracket (text : String) : Bool :=
  match text.data with
  | '[' :: _ => true
  | _ => false

/-- Dashboard error detection for a model card: `text.startsWith("[")`;
cards with `isError` are disabled and `handleModelSelect` is never run. -/
def isError (text : String) : Bool :=
  startsWithBracket text

/-- Guard at the top of `handlePublish`: the publish request is sent only
when the selected output is non-empty and does not start with `"["`
(`if (!text || text.startsWith("[")) { ...error...; return; }`). -/
def handlePublishProceeds (text : String) : Bool :=
  !(text == "" || startsWithBracket text)

/-- C1: for every combination of per-provider outcomes — in particular for
every subset of failing providers, from none to all — one run of the
generate fan-out returns a keyed result set with exactly one entry per
configured provider in the order openai, gemini, claude, geminiDirect,
groq; each entry is either the text parsed from that provider's response
or the placeholder `[<Label> error: <reason>]`; and exactly one draft-store
creation is issued, carrying all five slot texts.  No slot is dropped and
no failure aborts the batch. -/
theorem generate_fanout_total (prompt : String) (b : SettledBatch) :
    ((generateSettle prompt b).1.map Prod.fst =
      ["openai", "gemini", "claude", "geminiDirect", "groq"]) ∧
    (∀ p : Provider, (generateSettle prompt b).1.lookup (providerKey p) =
      some (slotText p (batchGet b p))) ∧
    (∀ p : Provider,
      (∃ d, batchGet b p = .fulfilled d ∧
        slotText p (batchGet b p) = providerParse p d) ∨
      (∃ r, batchGet b p = .rejected r ∧
        slotText p (batchGet b p) =
          "[" ++ providerLabel p ++ " error: " ++ reasonText r ++ "]")) ∧
    ((generateSettle prompt b).2 =
      [⟨prompt, slotText .openai b.openai, slotText .gemini b.gemini,
        slotText .claude b.claude, slotText .geminiDirect b.geminiDirect,
        slotText .groq b.groq⟩]) := by
  refine ⟨rfl, ?_, ?_, rfl⟩
  · intro p
    cases p <;> rfl
  · intro p
    cases hp : batchGet b p with
    | fulfilled d => exact Or.inl ⟨d, rfl, rfl⟩
    | rejected r => exact Or.inr ⟨r, rfl, rfl⟩

/-- C10: a provider call that succeeds at the transport level but whose
response body does not carry a string in the expected content field parses
to the fixed string `"[No response]"`; that string starts with the
error-placeholder bracket, so the dashboard marks it as an error slot and
`handlePublish` refuses to publish it — exactly as it treats a failed
provider's placeholder. -/
theorem empty_output_not_selectable (data : Json)
    (h : openAIContentIsString data = false) :
    parseOpenAIResponse data = "[No response]" ∧
    isError (parseOpenAIResponse data) = true ∧
    handlePublishProceeds (parseOpenAIResponse data) = false := by
  have hp : parseOpenAIResponse data = "[No response]" := by
    unfold parseOpenAIResponse
    unfold openAIContentIsString at h
    match hc : openAIContent data with
    | some (.str s) => rw [hc] at h; simp at h
    | none => rfl
    | some .null => rfl
    | some (.num n) => rfl
    | some (.bool b) => rfl
    | some (.arr xs) => rfl
    | some (.obj fs) => rfl
  refine ⟨hp, ?_, ?_⟩ <;> rw [hp] <;> decide

/-- Witness for C10 at a concrete input: an object with no `choices` field
parses to the placeholder and is rejected by both client-side gates. -/
theorem empty_output_not_selectable_witness :
    parseOpenAIResponse (Json.obj []) = "[No response]" ∧
    isError (parseOpenAIResponse (Json.obj [])) = true ∧
    handlePublishProceeds (parseOpenAIResponse (Json.obj [])) = false :=
  empty_output_not_selectable (Json.obj []) rfl

/-! ### Sliding-window rate limiter (src/lib/rate-limit.ts)

The limiter keeps, per client key, the list of admission timestamps inside
the current window.  `rateLimit` is one call for one key: it takes the
current time and the stored timestamp list and returns the
`{allowed, remaining}` result together with the new stored list. -/

/-- Window length in milliseconds (`windowMs = 60_000`). -/
def windowMs : Nat := 60000

/-- Quota per window (`maxRequests = 10`). -/
def maxRequests : Nat := 10

/-- One call of `rateLimit` for one key: filter out timestamps older than
the window, reject with `remaining = 0` when the quota is reached, else
record `now` and admit with the remaining quota. -/
def rateLimit (now : Nat) (stored : List Nat) : (Bool × Nat) × List Nat :=
  let timestamps := stored.filter (fun t => now - t < windowMs)
  if maxRequests ≤ timestamps.length then
    ((false, 0), timestamps)
  else
    let pushed := timestamps ++ [now]
    ((true, maxRequests - pushed.length), pushed)

/-- Run a sequence of `rateLimit` calls (same key) at the given times,
starting from the given stored list; returns the final stored list and the
per-call results in call order. -/
def rateLimitRun (stored : List Nat) : List Nat → List Nat × List (Bool × Nat)
  | [] => (stored, [])
  | t :: rest =>
    let r := rateLimit t stored
    let tail := rateLimitRun r.2 rest
    (tail.1, r.1 :: tail.2)

/-- When every stored timestamp is inside the window, the filter keeps the
stored list unchanged. -/
theorem rateLimit_filter_id (now : Nat) (stored : List Nat)
    (h : ∀ a ∈ stored, now - a < windowMs) :
    stored.filter (fun t => now - t < windowMs) = stored := by
  apply List.filter_eq_self.mpr
  intro a ha
  simpa using h a ha

/-- Run lemma: as long as the quota is not exceeded and every pair of the
involved timestamps lies within one window of each other, every call is
admitted, the stored list just accumulates the call times, and the `i`-th
call of the run reports `remaining = maxRequests - (stored.length + i + 1)`. -/
theorem rateLimitRun_within (calls : List Nat) : ∀ (stored : List Nat),
    stored.length + calls.length ≤ maxRequests →
    (∀ a ∈ stored ++ calls, ∀ b ∈ stored ++ calls, a - b < windowMs) →
    rateLimitRun stored calls =
      (stored ++ calls, (List.range calls.length).map
        (fun i => (true, maxRequests - (stored.length + i + 1)))) := by
  induction calls with
  | nil => intro stored _ _; simp [rateLimitRun]
  | cons t rest ih =>
    intro stored hlen hwin
    have hfilter : stored.filter (fun a => t - a < windowMs) = stored := by
      apply rateLimit_filter_id
      intro a ha
      exact hwin t (by simp) a (by simp [ha])
    have hlc : (t :: rest).length = rest.length + 1 := List.length_cons t rest
    have hlt : ¬ maxRequests ≤ stored.length := by omega
    have hstep : rateLimit t stored =
        ((true, maxRequests - (stored.length + 1)), stored ++ [t]) := by
      simp only [rateLimit, hfilter, if_neg hlt]
      simp
    have hwin' : ∀ a ∈ (stored ++ [t]) ++ rest, ∀ b ∈ (stored ++ [t]) ++ rest,
        a - b < windowMs := by
      intro a ha b hb
      apply hwin <;> simp only [List.mem_append, List.mem_cons, List.mem_singleton] at * <;> tauto
    have hlen' : (stored ++ [t]).length + rest.length ≤ maxRequests := by
      have : (stored ++ [t]).length = stored.length + 1 := by simp
      omega
    have hrest := ih (stored ++ [t]) hlen' hwin'
    simp only [rateLimitRun, hstep, hrest]
    rw [Prod.ext_iff]
    refine ⟨by simp, ?_⟩
    simp only [List.length_cons, List.range_succ_eq_map, List.map_cons, List.map_map,
      List.cons.injEq]
    refine ⟨by simp, ?_⟩
    apply List.map_congr_left
    intro i _
    simp only [Function.comp_apply, List.length_append, List.length_singleton,
      Nat.succ_eq_add_one]
    have harith : stored.length + 1 + i + 1 = stored.length + (i + 1) + 1 := by omega
    rw [harith]

/-- C6: starting from no prior admissions for a key, eleven calls all within
one 60-second window produce `allowed = true` with `remaining` counting down
9, 8, ..., 0 for the first ten calls and `{allowed := false, remaining := 0}`
for the eleventh; and once every recorded timestamp is at least 60 seconds
old, the next call is admitted again (with `remaining = 9`). -/
theorem rate_limiter_window (calls : List Nat) (t2 : Nat)
    (hlen : calls.length = 11)
    (hwin : ∀ a ∈ calls, ∀ b ∈ calls, a - b < windowMs)
    (hafter : ∀ a ∈ (rateLimitRun [] calls).1, windowMs ≤ t2 - a) :
    (rateLimitRun [] calls).2 =
      [(true, 9), (true, 8), (true, 7), (true, 6), (true, 5), (true, 4),
       (true, 3), (true, 2), (true, 1), (true, 0), (false, 0)] ∧
    (rateLimit t2 (rateLimitRun [] calls).1).1 = (true, 9) := by
  have hsplit : calls = calls.take 10 ++ calls.drop 10 := (List.take_append_drop 10 calls).symm
  have htake : (calls.take 10).length = 10 := by
    rw [List.length_take]; omega
  have hdroplen : (calls.drop 10).length = 1 := by
    rw [List.length_drop]; omega
  obtain ⟨t11, hdrop⟩ : ∃ t11, calls.drop 10 = [t11] := by
    match h : calls.drop 10 with
    | [t] => exact ⟨t, rfl⟩
    | [] => rw [h] at hdroplen; simp at hdroplen
    | a :: b :: l => rw [h] at hdroplen; simp at hdroplen
  have hmem_take : ∀ a ∈ calls.take 10, a ∈ calls := fun a ha => List.mem_of_mem_take ha
  have hmem_t11 : t11 ∈ calls := by
    have : t11 ∈ calls.drop 10 := by rw [hdrop]; simp
    exact List.mem_of_mem_drop this
  have hrun10 : rateLimitRun [] (calls.take 10) =
      (calls.take 10, (List.range 10).map (fun i => (true, maxRequests - (i + 1)))) := by
    have := rateLimitRun_within (calls.take 10) []
      (by simp [htake, maxRequests])
      (by
        intro a ha b hb
        simp only [List.nil_append] at ha hb
        exact hwin a (hmem_take a ha) b (hmem_take b hb))
    simpa [htake] using this
  have hrun : rateLimitRun [] calls =
      (calls.take 10,
       ((List.range 10).map (fun i => (true, maxRequests - (i + 1)))) ++ [(false, 0)]) := by
    conv_lhs => rw [hsplit, hdrop]
    have happend : ∀ (st : List Nat) (xs ys : List Nat),
        rateLimitRun st (xs ++ ys) =
          ((rateLimitRun (rateLimitRun st xs).1 ys).1,
           (rateLimitRun st xs).2 ++ (rateLimitRun (rateLimitRun st xs).1 ys).2) := by
      intro st xs
      induction xs generalizing st with
      | nil => intro ys; simp [rateLimitRun]
      | cons x xs ihx => intro ys; simp [rateLimitRun, ihx]
    rw [happend]
    rw [hrun10]
    have hfilter11 : (calls.take 10).filter (fun a => t11 - a < windowMs) = calls.take 10 := by
      apply rateLimit_filter_id
      intro a ha
      exact hwin t11 hmem_t11 a (hmem_take a ha)
    have hfull : maxRequests ≤ (calls.take 10).length := by
      rw [htake]; decide
    have hstep11 : rateLimit t11 (calls.take 10) = ((false, 0), calls.take 10) := by
      simp only [rateLimit, hfilter11, if_pos hfull]
    simp only [rateLimitRun, hstep11]
  refine ⟨?_, ?_⟩
  · rw [hrun]
    show ((List.range 10).map (fun i => (true, maxRequests - (i + 1)))) ++ [(false, 0)] =
      [(true, 9), (true, 8), (true, 7), (true, 6), (true, 5), (true, 4),
       (true, 3), (true, 2), (true, 1), (true, 0), (false, 0)]
    decide
  · have hfe : (calls.take 10).filter (fun a => t2 - a < windowMs) = [] := by
      apply List.filter_eq_nil_iff.mpr
      intro a ha
      have hw := hafter a (by rw [hrun]; exact ha)
      simp only [decide_eq_true_eq, not_lt]
      omega
    rw [hrun]
    show (rateLimit t2 (calls.take 10)).1 = (true, 9)
    simp [rateLimit, hfe, maxRequests]

/-- Witness for C6 at concrete inputs: eleven calls at times 0..10 (all
within one window) and a later call at time 100000. -/
theorem rate_limiter_window_witness :
    (rateLimitRun [] [0, 1, 2, 3, 4, 5, 6, 7, 8, 9, 10]).2 =
      [(true, 9), (true, 8), (true, 7), (true, 6), (true, 5), (true, 4),
       (true, 3), (true, 2), (true, 1), (true, 0), (false, 0)] ∧
    (rateLimit 100000 (rateLimitRun [] [0, 1, 2, 3, 4, 5, 6, 7, 8, 9, 10]).1).1 = (true, 9) :=
  rate_limiter_window [0, 1, 2, 3, 4, 5, 6, 7, 8, 9, 10] 100000
    (by decide) (by decide) (by decide)

/-! ### Text sanitization (src/app/api/publish/route.ts, stripMarkdown)

`stripMarkdown` applies four global regex replacements in order:
`/\*\*(.+?)\*\*/g → "$1"`, `/\*(.+?)\*/g → "$1"`, `/^#{1,6}\s+/gm → ""`,
`/◆/g → "•"`.  Each pass is modelled as a left-to-right scan over the
character list with the regex's semantics: `.` matches any character except
newline, `(.+?)` is the shortest non-empty content followed by the closing
delimiter, a failed match attempt advances the scan by one character, and a
match's replacement is not rescanned.  The scans recurse on a fuel counter
initialised to the list length; every step consumes one fuel and strictly
shortens the unscanned list, so the fuel never runs out. -/

/-- Find the shortest `(.+?)\*\*` completion: the content already read so
far ends at the earliest pair of consecutive stars; a newline aborts the
attempt.  Returns the content and the characters after the closing `**`. -/
def scanClose2 : List Char → Option (List Char × List Char)
  | '*' :: '*' :: rest => some ([], rest)
  | c :: cs =>
    if c = '\n' then none
    else (scanClose2 cs).map (fun pr => (c :: pr.1, pr.2))
  | [] => none

/-- Match `(.+?)\*\*` right after an opening `**`: at least one non-newline
content character, then the earliest closing pair of stars. -/
def findClose2 : List Char → Option (List Char × List Char)
  | [] => none
  | c :: cs =>
    if c = '\n' then none
    else (scanClose2 cs).map (fun pr => (c :: pr.1, pr.2))

/-- Find the shortest `(.+?)\*` completion for the single-star pattern. -/
def scanClose1 : List Char → Option (List Char × List Char)
  | '*' :: rest => some ([], rest)
  | c :: cs =>
    if c = '\n' then none
    else (scanClose1 cs).map (fun pr => (c :: pr.1, pr.2))
  | [] => none

/-- Match `(.+?)\*` right after an opening `*`. -/
def findClose1 : List Char → Option (List Char × List Char)
  | [] => none
  | c :: cs =>
    if c = '\n' then none
    else (scanClose1 cs).map (fun pr => (c :: pr.1, pr.2))

/-- Global replacement `/\*\*(.+?)\*\*/g → "$1"`: on `**`, emit the matched
content and continue after the closing stars; on a failed attempt, advance
one character (keeping the first star) and rescan. -/
def stripBoldGo : Nat → List Char → List Char
  | 0, l => l
  | _ + 1, [] => []
  | fuel + 1, '*' :: '*' :: cs =>
    match findClose2 cs with
    | some (content, rest) => content ++ stripBoldGo fuel rest
    | none => '*' :: stripBoldGo fuel ('*' :: cs)
  | fuel + 1, c :: cs => c :: stripBoldGo fuel cs

/-- Global replacement `/\*(.+?)\*/g → "$1"`. -/
def stripItalicGo : Nat → List Char → List Char
  | 0, l => l
  | _ + 1, [] => []
  | fuel + 1, '*' :: cs =>
    match findClose1 cs with
    | some (content, rest) => content ++ stripItalicGo fuel rest
    | none => '*' :: stripItalicGo fuel cs
  | fuel + 1, c :: cs => c :: stripItalicGo fuel cs

/-- Membership of JavaScript's `\s` class, over its ASCII members (the
repository's texts contain no exotic Unicode whitespace). -/
def isSpaceChar (c : Char) : Bool :=
  c = ' ' || c = '\t' || c = '\n' || c = '\r' || c = '\x0b' || c = '\x0c'

/-- Try to match `#{1,6}\s+` at a line start: one to six hash marks followed
by a maximal non-empty whitespace run (which, like `\s`, may include
newlines).  Returns the characters after the match and whether the last
matched character was a newline (i.e. whether the scan resumes at a line
start). -/
def headingMatch (l : List Char) : Option (List Char × Bool) :=
  let hs := l.takeWhile (fun c => c = '#')
  if 1 ≤ hs.length ∧ hs.length ≤ 6 then
    let after := l.drop hs.length
    let sp := after.takeWhile isSpaceChar
    if 1 ≤ sp.length then
      some (after.drop sp.length, sp.getLast? == some '\n')
    else none
  else none

/-- Global multiline replacement `/^#{1,6}\s+/gm → ""`; the `Bool` tracks
whether the scan position is at a line start (string start or just after a
newline). -/
def stripHeadGo : Nat → Bool → List Char → List Char
  | 0, _, l => l
  | fuel + 1, true, l =>
    match headingMatch l with
    | some (rest, endsNl) => stripHeadGo fuel endsNl rest
    | none =>
      match l with
      | [] => []
      | c :: cs => c :: stripHeadGo fuel (c = '\n') cs
  | fuel + 1, false, l =>
    match l with
    | [] => []
    | c :: cs => c :: stripHeadGo fuel (c = '\n') cs

/-- The publish pipeline's text sanitizer `stripMarkdown`: remove `**bold**`
and `*italic*` markers keeping their contents, remove heading markers at
line starts, and replace every `◆` with `•`. -/
def stripMarkdown (text : String) : String :=
  let l1 := stripBoldGo text.data.length text.data
  let l2 := stripItalicGo l1.length l1
  let l3 := stripHeadGo l2.length true l2
  let l4 := l3.map (fun c => if c = '◆' then '•' else c)
  String.mk l4

/-- C3: the concrete sanitization equation from the spec — double-asterisk
bold and single-asterisk italic markers are removed keeping their contents,
and the `◆` bullet glyph becomes `•`. -/
theorem stripMarkdown_roundtrip :
    stripMarkdown "**bold** and *italic* with ◆ item" =
      "bold and italic with • item" := by
  decide

/-! ### Publish pipeline (src/app/api/publish/route.ts)

Environment variables, LinkedIn network calls and the draft-store update
are explicit values: the network is an oracle giving each outbound call's
result, and the returned `PublishResult` records which outbound calls were
made and the single draft update (if any). -/

/-- JavaScript truthiness of an optional string environment variable or
response field: present and non-empty. -/
def truthyStr : Option String → Bool
  | some s => !(s == "")
  | none => false

/-- A parsed publish request body. -/
structure PublishBody where
  draftId : String
  selectedModel : String
  text : String
  imageUrl : Option String
deriving DecidableEq

/-- The `selectedModel` enum of `bodySchema`. -/
def publishModels : List String :=
  ["openai", "gemini", "claude", "geminiDirect", "groq"]

/-- The zod `bodySchema` of the publish endpoint: `draftId` non-empty,
`selectedModel` in the enum, `text` of length 1..3000, and `imageUrl`
optional but a valid URL when present (URL validity is the library's check,
taken as a parameter). -/
def bodySchemaAccepts (isUrl : String → Bool) (b : PublishBody) : Bool :=
  decide (1 ≤ b.draftId.length) &&
  publishModels.contains b.selectedModel &&
  decide (1 ≤ b.text.length) && decide (b.text.length ≤ 3000) &&
  (match b.imageUrl with
   | none => true
   | some u => isUrl u)

/-- The publish-relevant environment. -/
structure PublishEnv where
  publishEnabled : Option String
  linkedinAccessToken : Option String
  linkedinAuthorUrn : Option String

/-- Credential check `isLinkedInConfigured`:
`!!(LINKEDIN_ACCESS_TOKEN && LINKEDIN_AUTHOR_URN && LINKEDIN_AUTHOR_URN !== "urn:li:person:XXXX")`. -/
def isLinkedInConfigured (env : PublishEnv) : Bool :=
  truthyStr env.linkedinAccessToken &&
  truthyStr env.linkedinAuthorUrn &&
  !(env.linkedinAuthorUrn == some "urn:li:person:XXXX")

/-- Result of one outbound HTTP call: fulfilled with a value, or thrown
(non-2xx status, timeout, network error — axios throws in each case). -/
inductive Step (α : Type) where
  | ok (val : α)
  | err

/-- Body of the `initializeUpload` response:
`initRes.data?.value?.uploadUrl` and `initRes.data?.value?.image`. -/
structure InitUploadResp where
  uploadUrl : Option String
  image : Option String

/-- Post-submission response: the `x-restli-id` response header and the
`data?.id` body field. -/
structure SubmitResp where
  headerRestliId : Option String
  bodyId : Option String

/-- Oracle for the four outbound LinkedIn-side calls a publish can make. -/
structure LinkedInNet where
  downloadImage : Step Unit
  initUpload : Step InitUploadResp
  putImage : Step Unit
  submitPost : Step SubmitResp

/-- Which outbound calls a publish run performed, in order. -/
inductive LCall where
  | downloadImage
  | initUpload
  | putImage
  | submitPost
deriving DecidableEq

/-- The helper `uploadImageToLinkedIn`: download the image bytes, initialize
an upload (failing if the response lacks the upload URL or image URN), PUT
the bytes.  Returns the image URN, or `none` when any step threw, together
with the calls actually made. -/
def uploadImageToLinkedIn (net : LinkedInNet) : Option String × List LCall :=
  match net.downloadImage with
  | .err => (none, [.downloadImage])
  | .ok _ =>
    match net.initUpload with
    | .err => (none, [.downloadImage, .initUpload])
    | .ok resp =>
      if truthyStr resp.uploadUrl && truthyStr resp.image then
        match net.putImage with
        | .err => (none, [.downloadImage, .initUpload, .putImage])
        | .ok _ => (resp.image, [.downloadImage, .initUpload, .putImage])
      else
        (none, [.downloadImage, .initUpload])

/-- The data record of the single `prisma.draft.update` call. -/
structure DraftUpdate where
  draftId : String
  selectedModel : String
  finalText : String
  imageUrl : Option String
  linkedinPostId : String
  published : Bool
deriving DecidableEq

/-- HTTP-level outcome of a publish request. -/
inductive PublishOutcome where
  | disabled
  | invalidPayload
  | imageUploadError
  | linkedinApiError
  | success (postId : String) (dryRun : Bool) (message : String)
deriving DecidableEq

/-- Everything observable about one publish request: the response, the
outbound calls made, the commentary text actually submitted to the network
(`none` when no post submission happened), and the draft-store update. -/
structure PublishResult where
  outcome : PublishOutcome
  calls : List LCall
  submittedCommentary : Option String
  draftUpdate : Option DraftUpdate
deriving DecidableEq

/-- Dry-run success message of the handler. -/
def dryRunMessage : String :=
  "Draft saved (dry run). LinkedIn not configured yet — add LINKEDIN_ACCESS_TOKEN and LINKEDIN_AUTHOR_URN to go live."

/-- Live success messages of the handler (with and without an image). -/
def liveMessage (withImage : Bool) : String :=
  if withImage then "Published to LinkedIn with image successfully!"
  else "Published to LinkedIn successfully!"

/-- The publish `POST` handler.  `now` is `Date.now()` in epoch
milliseconds.  Kill switch first, then schema validation; in configured
(live) mode an optional three-step image upload whose failure aborts with
an error before any post submission, then the post submission whose
sanitized `commentary` is `stripMarkdown(text)`; in dry-run mode no
outbound call at all and a locally generated `dry-run-<now>` post id.
Both success paths end with exactly one draft update that stores the
unsanitized selected text and `published := !dryRun`. -/
def publishPOST (isUrl : String → Bool) (env : PublishEnv) (net : LinkedInNet)
    (now : Nat) (b : PublishBody) : PublishResult :=
  if !(env.publishEnabled == some "true") then
    ⟨.disabled, [], none, none⟩
  else if !(bodySchemaAccepts isUrl b) then
    ⟨.invalidPayload, [], none, none⟩
  else
    let cleanText := stripMarkdown b.text
    let dryRunPostId := "dry-run-" ++ toString now
    if isLinkedInConfigured env then
      let uploaded :=
        match b.imageUrl with
        | some _ => some (uploadImageToLinkedIn net)
        | none => none
      match uploaded with
      | some (none, trace) =>
        ⟨.imageUploadError, trace, none, none⟩
      | some (some _urn, trace) =>
        (match net.submitPost with
         | .err => ⟨.linkedinApiError, trace ++ [.submitPost], some cleanText, none⟩
         | .ok resp =>
           let postId := resp.headerRestliId.getD (resp.bodyId.getD "unknown")
           ⟨.success postId false (liveMessage true), trace ++ [.submitPost],
            some cleanText,
            some ⟨b.draftId, b.selectedModel, b.text, b.imageUrl, postId, true⟩⟩)
      | none =>
        (match net.submitPost with
         | .err => ⟨.linkedinApiError, [.submitPost], some cleanText, none⟩
         | .ok resp =>
           let postId := resp.headerRestliId.getD (resp.bodyId.getD "unknown")
           ⟨.success postId false (liveMessage false), [.submitPost],
            some cleanText,
            some ⟨b.draftId, b.selectedModel, b.text, b.imageUrl, postId, true⟩⟩)
    else
      ⟨.success dryRunPostId true dryRunMessage, [], none,
       some ⟨b.draftId, b.selectedModel, b.text, b.imageUrl, dryRunPostId, false⟩⟩

/-- C5: with the publish-enable flag set but LinkedIn credentials absent or
the placeholder, a valid publish request makes no outbound network call,
returns a dry-run success whose post id starts with `dry-run-`, and updates
the draft exactly once with the selected provider and final text while
leaving `published` false. -/
theorem publish_dry_run (isUrl : String → Bool) (env : PublishEnv)
    (net : LinkedInNet) (now : Nat) (b : PublishBody)
    (henabled : env.publishEnabled = some "true")
    (hconf : isLinkedInConfigured env = false)
    (hvalid : bodySchemaAccepts isUrl b = true) :
    (publishPOST isUrl env net now b).calls = [] ∧
    (publishPOST isUrl env net now b).outcome =
      .success ("dry-run-" ++ toString now) true dryRunMessage ∧
    (∃ suffix, "dry-run-" ++ toString now = "dry-run-" ++ suffix) ∧
    (publishPOST isUrl env net now b).submittedCommentary = none ∧
    (publishPOST isUrl env net now b).draftUpdate =
      some ⟨b.draftId, b.selectedModel, b.text, b.imageUrl,
            "dry-run-" ++ toString now, false⟩ := by
  have h : publishPOST isUrl env net now b =
      ⟨.success ("dry-run-" ++ toString now) true dryRunMessage, [], none,
       some ⟨b.draftId, b.selectedModel, b.text, b.imageUrl,
             "dry-run-" ++ toString now, false⟩⟩ := by
    unfold publishPOST
    rw [henabled, hvalid, hconf]
    simp
  rw [h]
  exact ⟨rfl, rfl, ⟨toString now, rfl⟩, rfl, rfl⟩

/-- Witness for C5 at concrete inputs: enabled, no credentials configured,
a valid body, `now = 0`. -/
theorem publish_dry_run_witness :
    (publishPOST (fun _ => false)
      ⟨some "true", none, none⟩
      ⟨.ok (), .ok ⟨none, none⟩, .ok (), .ok ⟨none, none⟩⟩ 0
      ⟨"d1", "openai", "hello", none⟩).calls = [] ∧
    (publishPOST (fun _ => false)
      ⟨some "true", none, none⟩
      ⟨.ok (), .ok ⟨none, none⟩, .ok (), .ok ⟨none, none⟩⟩ 0
      ⟨"d1", "openai", "hello", none⟩).outcome =
      .success ("dry-run-" ++ toString 0) true dryRunMessage ∧
    (∃ suffix, "dry-run-" ++ toString 0 = "dry-run-" ++ suffix) ∧
    (publishPOST (fun _ => false)
      ⟨some "true", none, none⟩
      ⟨.ok (), .ok ⟨none, none⟩, .ok (), .ok ⟨none, none⟩⟩ 0
      ⟨"d1", "openai", "hello", none⟩).submittedCommentary = none ∧
    (publishPOST (fun _ => false)
      ⟨some "true", none, none⟩
      ⟨.ok (), .ok ⟨none, none⟩, .ok (), .ok ⟨none, none⟩⟩ 0
      ⟨"d1", "openai", "hello", none⟩).draftUpdate =
      some ⟨"d1", "openai", "hello", none, "dry-run-" ++ toString 0, false⟩ :=
  publish_dry_run (fun _ => false) ⟨some "true", none, none⟩
    ⟨.ok (), .ok ⟨none, none⟩, .ok (), .ok ⟨none, none⟩⟩ 0
    ⟨"d1", "openai", "hello", none⟩ rfl rfl (by decide)

/-- Whatever the network oracle does, the image-upload helper only ever
performs the download, initialize-upload and PUT calls — never a post
submission. -/
theorem uploadImage_no_submit (net : LinkedInNet) :
    LCall.submitPost ∉ (uploadImageToLinkedIn net).2 := by
  unfold uploadImageToLinkedIn
  repeat' split
  all_goals simp

/-- C9: in live mode with an image supplied, if any step of the three-step
image sequence fails (download throws, initialize-upload throws or returns
no upload URL or URN, or the byte PUT throws), the whole publish aborts
with the image-upload error: no post submission happens and the draft is
not updated. -/
theorem publish_image_failure_aborts (isUrl : String → Bool)
    (env : PublishEnv) (net : LinkedInNet) (now : Nat) (b : PublishBody)
    (u : String)
    (henabled : env.publishEnabled = some "true")
    (hconf : isLinkedInConfigured env = true)
    (hvalid : bodySchemaAccepts isUrl b = true)
    (himg : b.imageUrl = some u)
    (hfail : (uploadImageToLinkedIn net).1 = none) :
    (publishPOST isUrl env net now b).outcome = .imageUploadError ∧
    LCall.submitPost ∉ (publishPOST isUrl env net now b).calls ∧
    (publishPOST isUrl env net now b).submittedCommentary = none ∧
    (publishPOST isUrl env net now b).draftUpdate = none := by
  have hup : uploadImageToLinkedIn net = (none, (uploadImageToLinkedIn net).2) := by
    rw [← hfail]
  have h : publishPOST isUrl env net now b =
      ⟨.imageUploadError, (uploadImageToLinkedIn net).2, none, none⟩ := by
    unfold publishPOST
    rw [henabled, hvalid, hconf, himg]
    rw [hup]
    simp
  rw [h]
  exact ⟨rfl, uploadImage_no_submit net, rfl, rfl⟩

/-- Witness for C9 at concrete inputs: credentials configured, a valid body
with an image URL, and a network whose initialize-upload call throws. -/
theorem publish_image_failure_aborts_witness :
    (publishPOST (fun _ => true)
      ⟨some "true", some "tok", some "urn:li:person:abc"⟩
      ⟨.ok (), .err, .ok (), .ok ⟨some "post1", none⟩⟩ 0
      ⟨"d1", "openai", "hello", some "https://img"⟩).outcome = .imageUploadError ∧
    LCall.submitPost ∉ (publishPOST (fun _ => true)
      ⟨some "true", some "tok", some "urn:li:person:abc"⟩
      ⟨.ok (), .err, .ok (), .ok ⟨some "post1", none⟩⟩ 0
      ⟨"d1", "openai", "hello", some "https://img"⟩).calls ∧
    (publishPOST (fun _ => true)
      ⟨some "true", some "tok", some "urn:li:person:abc"⟩
      ⟨.ok (), .err, .ok (), .ok ⟨some "post1", none⟩⟩ 0
      ⟨"d1", "openai", "hello", some "https://img"⟩).submittedCommentary = none ∧
    (publishPOST (fun _ => true)
      ⟨some "true", some "tok", some "urn:li:person:abc"⟩
      ⟨.ok (), .err, .ok (), .ok ⟨some "post1", none⟩⟩ 0
      ⟨"d1", "openai", "hello", some "https://img"⟩).draftUpdate = none :=
  publish_image_failure_aborts (fun _ => true)
    ⟨some "true", some "tok", some "urn:li:person:abc"⟩
    ⟨.ok (), .err, .ok (), .ok ⟨some "post1", none⟩⟩ 0
    ⟨"d1", "openai", "hello", some "https://img"⟩ "https://img"
    rfl (by decide) (by decide) rfl rfl

/-- C2 counterexample: the claim that bracket-prefixed outputs are rejected
server-side is false.  The bracket-prefixed error placeholder
`"[GPT-OSS error: unknown]"` passes the publish endpoint's `bodySchema`
(which checks only length and enum bounds), and with credentials configured
the endpoint publishes it: the post submission is made and the draft is
updated with `published := true`. -/
theorem bracket_not_rejected_server_side :
    startsWithBracket "[GPT-OSS error: unknown]" = true ∧
    bodySchemaAccepts (fun _ => false)
      ⟨"d1", "openai", "[GPT-OSS error: unknown]", none⟩ = true ∧
    (publishPOST (fun _ => false)
      ⟨some "true", some "tok", some "urn:li:person:abc"⟩
      ⟨.ok (), .ok ⟨none, none⟩, .ok (), .ok ⟨some "post1", none⟩⟩ 0
      ⟨"d1", "openai", "[GPT-OSS error: unknown]", none⟩).outcome =
      .success "post1" false (liveMessage false) ∧
    (publishPOST (fun _ => false)
      ⟨some "true", some "tok", some "urn:li:person:abc"⟩
      ⟨.ok (), .ok ⟨none, none⟩, .ok (), .ok ⟨some "post1", none⟩⟩ 0
      ⟨"d1", "openai", "[GPT-OSS error: unknown]", none⟩).calls =
      [.submitPost] ∧
    (publishPOST (fun _ => false)
      ⟨some "true", some "tok", some "urn:li:person:abc"⟩
      ⟨.ok (), .ok ⟨none, none⟩, .ok (), .ok ⟨some "post1", none⟩⟩ 0
      ⟨"d1", "openai", "[GPT-OSS error: unknown]", none⟩).draftUpdate =
      some ⟨"d1", "openai", "[GPT-OSS error: unknown]", none, "post1", true⟩ := by
  refine ⟨by decide, by decide, ?_, ?_, ?_⟩ <;> rfl

/-- C2 as amended: every output string beginning with the error-placeholder
bracket is rejected client-side — the dashboard disables its selection card
and `handlePublish` refuses to send it — but the server-side publish
endpoint does not check for the bracket prefix: its schema accepts any
bracket-prefixed text that satisfies the length and enum bounds. -/
theorem bracket_rejected_client_side_only (t : String) (b : PublishBody)
    (isUrl : String → Bool)
    (ht : startsWithBracket t = true)
    (_hb : startsWithBracket b.text = true)
    (hd : 1 ≤ b.draftId.length)
    (hm : publishModels.contains b.selectedModel = true)
    (h1 : 1 ≤ b.text.length) (h2 : b.text.length ≤ 3000)
    (hi : b.imageUrl = none) :
    isError t = true ∧
    handlePublishProceeds t = false ∧
    bodySchemaAccepts isUrl b = true := by
  refine ⟨ht, ?_, ?_⟩
  · unfold handlePublishProceeds
    rw [ht]
    simp
  · unfold bodySchemaAccepts
    rw [hi, hm]
    simp [h1, h2, hd]

/-- Witness for the amended C2 at concrete inputs. -/
theorem bracket_rejected_client_side_only_witness :
    isError "[Gemma error: timeout]" = true ∧
    handlePublishProceeds "[Gemma error: timeout]" = false ∧
    bodySchemaAccepts (fun _ => false)
      ⟨"d1", "gemini", "[Gemma error: timeout]", none⟩ = true :=
  bracket_rejected_client_side_only "[Gemma error: timeout]"
    ⟨"d1", "gemini", "[Gemma error: timeout]", none⟩ (fun _ => false)
    (by decide) (by decide) (by decide) (by decide) (by decide) (by decide) rfl

/-! ### Canva OAuth token status check (src/app/api/canva/status/route.ts)

The token store holds at most one record (the `"singleton"` row).  The
status `GET` reads it, lazily refreshes an expired record when a refresh
token is available, and reports `{connected}`.  The refresh HTTP exchange
is an oracle: `some data` models a 2xx token response, `none` models a
non-2xx response or a thrown error. -/

/-- The stored Canva token record. -/
structure CanvaToken where
  accessToken : String
  refreshToken : Option String
  expiresAt : Option Nat
deriving DecidableEq

/-- Parsed body of a successful OAuth token response. -/
structure TokenData where
  access_token : String
  refresh_token : Option String
  expires_in : Option Nat
deriving DecidableEq

/-- The JSON body of the status response. -/
structure StatusResp where
  connected : Bool
  expired : Option Bool
deriving DecidableEq

/-- New stored record written by `refreshCanvaToken` on a successful
exchange: `refresh_token ?? <old refresh token>` and
`expires_in ? new Date(now + expires_in*1000) : null` (note the truthiness:
`expires_in = 0` stores `null`). -/
def refreshedRecord (now : Nat) (oldRefresh : String) (data : TokenData) :
    CanvaToken :=
  ⟨data.access_token,
   some (data.refresh_token.getD oldRefresh),
   match data.expires_in with
   | some s => if s ≠ 0 then some (now + s * 1000) else none
   | none => none⟩

/-- The status `GET`: returns the response, the token record after the call,
and whether the refresh exchange was attempted.  A record is expired when
its expiry is present and earlier than `now`; only the expired-with-refresh-
token path touches the network, and only a successful exchange writes. -/
def canvaStatusGET (now : Nat) (refreshHttp : Option TokenData)
    (st : Option CanvaToken) : StatusResp × Option CanvaToken × Bool :=
  match st with
  | none => (⟨false, none⟩, none, false)
  | some token =>
    if (match token.expiresAt with
        | some e => decide (e < now)
        | none => false) then
      match token.refreshToken with
      | some rt =>
        (match refreshHttp with
         | some data => (⟨true, none⟩, some (refreshedRecord now rt data), true)
         | none => (⟨false, some true⟩, some token, true))
      | none => (⟨false, some true⟩, some token, false)
    else
      (⟨true, none⟩, some token, false)

/-- C4: for a stored token whose expiry is absent or later than the current
time, the status check returns `{connected := true}` without mutating the
record and without attempting a refresh — and calling it a second time (at
any second non-expired instant) gives the same result again. -/
theorem canva_status_idempotent (tok : CanvaToken) (now1 now2 : Nat)
    (r1 r2 : Option TokenData)
    (h1 : tok.expiresAt = none ∨ ∃ e, tok.expiresAt = some e ∧ now1 < e)
    (h2 : tok.expiresAt = none ∨ ∃ e, tok.expiresAt = some e ∧ now2 < e) :
    canvaStatusGET now1 r1 (some tok) = (⟨true, none⟩, some tok, false) ∧
    canvaStatusGET now2 r2 (canvaStatusGET now1 r1 (some tok)).2.1 =
      (⟨true, none⟩, some tok, false) := by
  have hcall : ∀ (now : Nat) (r : Option TokenData),
      (tok.expiresAt = none ∨ ∃ e, tok.expiresAt = some e ∧ now < e) →
      canvaStatusGET now r (some tok) = (⟨true, none⟩, some tok, false) := by
    intro now r h
    have hexp : (match tok.expiresAt with
        | some e => decide (e < now)
        | none => false) = false := by
      rcases h with hnone | ⟨e, he, hlt⟩
      · rw [hnone]
      · rw [he]
        simp only [decide_eq_false_iff_not, not_lt]
        omega
    simp [canvaStatusGET, hexp]
  have hfirst := hcall now1 r1 h1
  refine ⟨hfirst, ?_⟩
  rw [hfirst]
  exact hcall now2 r2 h2

/-- Witness for C4 at concrete inputs: a token with no expiry, checked at
times 5 and 17. -/
theorem canva_status_idempotent_witness :
    canvaStatusGET 5 none (some ⟨"at", some "rt", none⟩) =
      (⟨true, none⟩, some ⟨"at", some "rt", none⟩, false) ∧
    canvaStatusGET 17 none
      (canvaStatusGET 5 none (some ⟨"at", some "rt", none⟩)).2.1 =
      (⟨true, none⟩, some ⟨"at", some "rt", none⟩, false) :=
  canva_status_idempotent ⟨"at", some "rt", none⟩ 5 17 none none
    (Or.inl rfl) (Or.inl rfl)

/-! ### Canva OAuth callback (src/app/api/canva/callback/route.ts)

The callback `GET` reads the `code`, `state` and `error` query parameters
and the `canva_oauth_state` / `canva_code_verifier` cookies, validates,
exchanges the code (oracle: `some data` for a 2xx token response, `none`
for failure), and upserts the singleton token record.  Every path redirects
back to the dashboard with a query flag. -/

/-- The dashboard redirect produced by the callback. -/
inductive CanvaRedirect where
  | errorFlag (code : String)
  | connected
deriving DecidableEq

/-- Everything observable about one callback request: the redirect, whether
the token exchange was attempted, the token record after the call, and
whether the transient PKCE cookies were cleared. -/
structure CallbackResult where
  redirect : CanvaRedirect
  exchangeCalled : Bool
  tokenRecord : Option CanvaToken
  cookiesCleared : Bool
deriving DecidableEq

/-- Token record written by the upsert on a successful exchange (the same
field mapping in the `create` and `update` branches):
`refresh_token ?? null` and `expires_in ? new Date(...) : null`. -/
def exchangedRecord (now : Nat) (data : TokenData) : CanvaToken :=
  ⟨data.access_token,
   data.refresh_token,
   match data.expires_in with
   | some s => if s ≠ 0 then some (now + s * 1000) else none
   | none => none⟩

/-- The callback `GET`.  `error`, `code` and `state` are the query
parameters (`none` for absent; an empty string is falsy like an absent
one); `cookieState` is the stored `canva_oauth_state` cookie value;
`exchangeHttp` is the token-exchange oracle; `st` is the stored token
record before the call. -/
def canvaCallbackGET (now : Nat) (exchangeHttp : Option TokenData)
    (code state error cookieState : Option String)
    (st : Option CanvaToken) : CallbackResult :=
  if truthyStr error then
    ⟨.errorFlag (error.getD ""), false, st, false⟩
  else if !(truthyStr code) || !(truthyStr state) then
    ⟨.errorFlag "missing_params", false, st, false⟩
  else if !(state == cookieState) then
    ⟨.errorFlag "invalid_state", false, st, false⟩
  else
    match exchangeHttp with
    | none => ⟨.errorFlag "token_exchange_failed", true, st, false⟩
    | some data => ⟨.connected, true, some (exchangedRecord now data), true⟩

/-- C8: a callback whose `state` parameter differs from the stored cookie
value (including an absent cookie) fails with `invalid_state`, attempting
no token exchange and leaving the token record untouched; a callback with
`code` or `state` missing fails with the distinct `missing_params` flag,
likewise without touching the record. -/
theorem callback_state_validation (now : Nat) (exchangeHttp : Option TokenData)
    (code state cookieState code2 state2 : Option String)
    (st st2 : Option CanvaToken)
    (hcode : truthyStr code = true)
    (hstate : truthyStr state = true)
    (hmismatch : state ≠ cookieState)
    (hmissing : truthyStr code2 = false ∨ truthyStr state2 = false) :
    canvaCallbackGET now exchangeHttp code state none cookieState st =
      ⟨.errorFlag "invalid_state", false, st, false⟩ ∧
    canvaCallbackGET now exchangeHttp code2 state2 none cookieState st2 =
      ⟨.errorFlag "missing_params", false, st2, false⟩ ∧
    CanvaRedirect.errorFlag "invalid_state" ≠
      CanvaRedirect.errorFlag "missing_params" := by
  refine ⟨?_, ?_, by decide⟩
  · unfold canvaCallbackGET
    have hne : (state == cookieState) = false := by
      simp only [beq_eq_false_iff_ne, ne_eq]
      exact hmismatch
    rw [hcode, hstate, hne]
    simp [truthyStr]
  · unfold canvaCallbackGET
    rcases hmissing with hc | hs
    · rw [hc]
      simp [truthyStr]
    · rw [hs]
      simp [truthyStr]

/-- Witness for C8 at concrete inputs: a state value with no matching
cookie, and a request missing its `code` parameter. -/
theorem callback_state_validation_witness :
    canvaCallbackGET 0 (some ⟨"at", none, none⟩)
      (some "c0") (some "s1") none (some "s2") none =
      ⟨.errorFlag "invalid_state", false, none, false⟩ ∧
    canvaCallbackGET 0 (some ⟨"at", none, none⟩)
      none (some "s1") none (some "s2") (some ⟨"old", none, none⟩) =
      ⟨.errorFlag "missing_params", false, some ⟨"old", none, none⟩, false⟩ ∧
    CanvaRedirect.errorFlag "invalid_state" ≠
      CanvaRedirect.errorFlag "missing_params" :=
  callback_state_validation 0 (some ⟨"at", none, none⟩)
    (some "c0") (some "s1") (some "s2") none (some "s1")
    none (some ⟨"old", none, none⟩)
    (by decide) (by decide) (by decide) (Or.inl (by decide))

/-! ### Canva export polling (src/app/api/canva/export/route.ts)

After the export job is created, the handler polls the job status up to 15
times at a 2-second interval.  Each attempt's HTTP result is an oracle
value indexed by the attempt number. -/

/-- The polled job object (`statusData.job`): its `status` string and the
two places a result URL may live, `job.result?.urls` and `job.urls`. -/
structure ExportJob where
  status : String
  resultUrls : Option (List String)
  urls : Option (List String)
deriving DecidableEq

/-- URL extraction `job.result?.urls?.[0] ?? job.urls?.[0] ?? null`,
checked in that fixed priority order. -/
def exportJobUrl (j : ExportJob) : Option String :=
  match j.resultUrls.bind List.head? with
  | some u => some u
  | none => j.urls.bind List.head?

/-- One poll attempt's outcome: a non-2xx response (`httpError`), or a 2xx
response whose body may or may not carry a `job` object. -/
inductive PollResp where
  | httpError
  | ok (job : Option ExportJob)
deriving DecidableEq

/-- Terminal outcome of the polling loop. -/
inductive ExportOutcome where
  | success (imageUrl : String)
  | jobFailed
  | timeout
deriving DecidableEq

/-- Does this poll outcome make the loop continue to the next attempt?  A
non-2xx response is skipped (`continue`); a missing job object matches
neither terminal status; a `success` status only returns when a truthy URL
was extracted (`if (imageUrl)`); a `failed` status terminates; anything
else is still in progress. -/
def pollContinues : PollResp → Bool
  | .httpError => true
  | .ok none => true
  | .ok (some job) =>
    if job.status == "success" then
      match exportJobUrl job with
      | some u => u == ""
      | none => true
    else
      !(job.status == "failed")

/-- One iteration of the polling loop body at a given attempt: a non-2xx
response or a non-terminal job falls through to `next` (the rest of the
loop); a `success` status with a truthy URL returns it; a `failed` status
returns the job-failure outcome. -/
def pollOnce (polls : Nat → PollResp) (attempt : Nat)
    (next : ExportOutcome) : ExportOutcome :=
  match polls attempt with
  | .httpError => next
  | .ok none => next
  | .ok (some job) =>
    if job.status == "success" then
      match exportJobUrl job with
      | some u => if u == "" then next else .success u
      | none => next
    else if job.status == "failed" then .jobFailed
    else next

/-- The polling loop from a given attempt index with a given number of
attempts remaining: mirrors
`for (let attempt = 0; attempt < 15; attempt++) { ... }` with the
post-loop timeout response. -/
def pollFrom (polls : Nat → PollResp) : Nat → Nat → ExportOutcome
  | _, 0 => .timeout
  | attempt, remaining + 1 =>
    pollOnce polls attempt (pollFrom polls (attempt + 1) remaining)

/-- The full polling phase of the export handler: 15 attempts from index 0. -/
def canvaExportPoll (polls : Nat → PollResp) : ExportOutcome :=
  pollFrom polls 0 15

/-- A continuing poll outcome falls through to the rest of the loop. -/
theorem pollOnce_continue (polls : Nat → PollResp) (attempt : Nat)
    (next : ExportOutcome) (h : pollContinues (polls attempt) = true) :
    pollOnce polls attempt next = next := by
  unfold pollOnce
  unfold pollContinues at h
  match hp : polls attempt with
  | .httpError => rfl
  | .ok none => rfl
  | .ok (some job) =>
    rw [hp] at h
    have h' : (if job.status == "success" then
        (match exportJobUrl job with
         | some u => u == ""
         | none => true)
      else !(job.status == "failed")) = true := h
    show (if job.status == "success" then
        (match exportJobUrl job with
         | some u => if u == "" then next else ExportOutcome.success u
         | none => next)
      else if job.status == "failed" then ExportOutcome.jobFailed else next) = next
    by_cases hs : (job.status == "success") = true
    · rw [if_pos hs] at h'
      rw [if_pos hs]
      match hu : exportJobUrl job with
      | some u =>
        rw [hu] at h'
        have hu' : (u == "") = true := h'
        show (if (u == "") = true then next else ExportOutcome.success u) = next
        rw [hu']
        rw [if_pos rfl]
      | none => rfl
    · rw [Bool.not_eq_true] at hs
      rw [hs] at h' ⊢
      simp only [Bool.false_eq_true, if_false] at h' ⊢
      simp only [Bool.not_eq_true'] at h'
      rw [h']
      simp only [Bool.false_eq_true, if_false]

/-- A poll outcome that continues advances the loop by one attempt without
changing the final result. -/
theorem pollFrom_step (polls : Nat → PollResp) (attempt remaining : Nat)
    (h : pollContinues (polls attempt) = true) :
    pollFrom polls attempt (remaining + 1) = pollFrom polls (attempt + 1) remaining :=
  pollOnce_continue polls attempt _ h

/-- Advancing over a block of continuing polls. -/
theorem pollFrom_advance (polls : Nat → PollResp) (k : Nat) :
    ∀ (attempt remaining : Nat),
    (∀ i, attempt ≤ i → i < attempt + k → pollContinues (polls i) = true) →
    pollFrom polls attempt (k + remaining) = pollFrom polls (attempt + k) remaining := by
  induction k with
  | zero =>
    intro attempt remaining _
    rw [Nat.zero_add, Nat.add_zero]
  | succ k ih =>
    intro attempt remaining hcont
    have hfirst : pollContinues (polls attempt) = true :=
      hcont attempt (Nat.le_refl _) (by omega)
    have hshift : (k + 1) + remaining = (k + remaining) + 1 := by omega
    calc pollFrom polls attempt ((k + 1) + remaining)
        = pollFrom polls attempt ((k + remaining) + 1) := by rw [hshift]
      _ = pollFrom polls (attempt + 1) (k + remaining) := pollFrom_step polls _ _ hfirst
      _ = pollFrom polls ((attempt + 1) + k) remaining := by
          apply ih
          intro i hlo hhi
          exact hcont i (by omega) (by omega)
      _ = pollFrom polls (attempt + (k + 1)) remaining := by
          congr 1
          omega

/-- C7: an export job that is still in progress on the first 14 polls and
reports `success` with an asset URL on the 15th returns that URL; a job
that never reaches a terminal status across all 15 polls times out — an
outcome distinct from the job-failure outcome; and a non-2xx poll response
is skipped and retried on the next tick rather than aborting the loop. -/
theorem export_poll_scenarios (p q r : Nat → PollResp) (jobIP jobS : ExportJob)
    (u : String) (attempt remaining : Nat)
    (hip : jobIP.status = "in_progress")
    (hp14 : ∀ i, i < 14 → p i = .ok (some jobIP))
    (hpS : p 14 = .ok (some jobS))
    (hS : jobS.status = "success")
    (hU : exportJobUrl jobS = some u)
    (hUne : u ≠ "")
    (hq : ∀ i, i < 15 → q i = .ok (some jobIP))
    (hr : r attempt = .httpError) :
    canvaExportPoll p = .success u ∧
    canvaExportPoll q = .timeout ∧
    ExportOutcome.timeout ≠ ExportOutcome.jobFailed ∧
    pollFrom r attempt (remaining + 1) = pollFrom r (attempt + 1) remaining := by
  have hipCont : pollContinues (.ok (some jobIP)) = true := by
    simp [pollContinues, hip]
  refine ⟨?_, ?_, by decide, ?_⟩
  · show pollFrom p 0 15 = .success u
    have hadv := pollFrom_advance p 14 0 1 (by
      intro i hlo hhi
      rw [hp14 i (by omega)]
      exact hipCont)
    rw [show (15 : Nat) = 14 + 1 from rfl, hadv]
    show pollOnce p 14 (pollFrom p 15 0) = .success u
    unfold pollOnce
    rw [hpS]
    have hSb : (jobS.status == "success") = true := by
      rw [hS]
      decide
    have hUb : (u == "") = false := by
      simp only [beq_eq_false_iff_ne, ne_eq]
      exact hUne
    simp [hSb, hU, hUb]
  · show pollFrom q 0 15 = .timeout
    have hadv := pollFrom_advance q 15 0 0 (by
      intro i hlo hhi
      rw [hq i (by omega)]
      exact hipCont)
    rw [show (15 : Nat) = 15 + 0 from rfl, hadv]
    rfl
  · have hrc : pollContinues (r attempt) = true := by
      rw [hr]
      rfl
    exact pollFrom_step r attempt remaining hrc

/-- Witness for C7 at concrete inputs: a poll sequence that succeeds on the
15th attempt, one that never terminates, and one whose first response is a
non-2xx error. -/
theorem export_poll_scenarios_witness :
    canvaExportPoll (fun i =>
      if i < 14 then .ok (some ⟨"in_progress", none, none⟩)
      else .ok (some ⟨"success", some ["https-asset"], none⟩)) =
      .success "https-asset" ∧
    canvaExportPoll (fun _ => .ok (some ⟨"in_progress", none, none⟩)) =
      .timeout ∧
    ExportOutcome.timeout ≠ ExportOutcome.jobFailed ∧
    pollFrom (fun _ => .httpError) 0 (14 + 1) =
      pollFrom (fun _ => .httpError) (0 + 1) 14 :=
  export_poll_scenarios
    (fun i =>
      if i < 14 then .ok (some ⟨"in_progress", none, none⟩)
      else .ok (some ⟨"success", some ["https-asset"], none⟩))
    (fun _ => .ok (some ⟨"in_progress", none, none⟩))
    (fun _ => .httpError)
    ⟨"in_progress", none, none⟩ ⟨"success", some ["https-asset"], none⟩
    "https-asset" 0 14
    rfl
    (fun i hi => by simp [hi])
    (by decide)
    rfl rfl (by decide)
    (fun i _ => rfl)
    rfl

end LinkedinAutomation
